import Mathlib

/-!
Shallow embedding of the notebook `src/RNN_LSTM.ipynb` (sentiment
classification on the IMDB movie-review dataset with an FNN, a SimpleRNN
and an LSTM model), together with proofs settling the specification
claims about it.

The notebook's own logic is thin glue: parameter constants, calls to
`keras.preprocessing.sequence.pad_sequences`, construction of four
`Sequential` layer stacks, three compile/fit configurations, and a short
`decode` helper that turns a token-index sequence back into words via the
inverse of the IMDB word index.  Each of those pieces is embedded below
as an executable Lean definition translated from the source cell.
-/

namespace RNNLSTM

/-! ## Parameter constants (notebook cell defining the parameters) -/

/-- VOCABULARY_SIZE = 10000 (take the 10000 most common words). -/
def VOCABULARY_SIZE : Nat := 10000

/-- MAX_REVIEW_LENGTH = 500 (finite length of the review). -/
def MAX_REVIEW_LENGTH : Nat := 500

/-- EMBEDDING_DIM = 100. -/
def EMBEDDING_DIM : Nat := 100

/-- EPOCHS = 2. -/
def EPOCHS : Nat := 2

/-- BATCH_SIZE = 128. -/
def BATCH_SIZE : Nat := 128

/-! ## Sequence padding

The notebook calls `sequence.pad_sequences(X, maxlen=MAX_REVIEW_LENGTH)`
for the train and test sets, and
`sequence.pad_sequences(texts, maxlen=MAX_REVIEW_LENGTH, value = 0.0)`
for the two inspected samples.  Keras `pad_sequences` with its default
arguments `padding='pre'`, `truncating='pre'` left-pads a sequence
shorter than `maxlen` with the sentinel `value` and keeps the last
`maxlen` entries of a sequence that is at least `maxlen` long.  Token
sequences are integer sequences, so the float sentinel is cast to the
integer dtype. -/

/-- Pad or truncate a single integer sequence to length `maxlen`:
left-pad with `value` when shorter, keep the last `maxlen` entries when
at least as long (keras `padding='pre'`, `truncating='pre'` defaults). -/
def padSequence (maxlen : Nat) (value : Int) (s : List Int) : List Int :=
  if maxlen ≤ s.length then s.drop (s.length - maxlen)
  else List.replicate (maxlen - s.length) value ++ s

/-- Embedding of `sequence.pad_sequences(xs, maxlen, value)`. -/
def pad_sequences (maxlen : Nat) (value : Int) (xs : List (List Int)) :
    List (List Int) :=
  xs.map (padSequence maxlen value)

/-- Modelled from the library's documented default: `pad_sequences` pads
with `value=0.0` when no sentinel is passed, cast to the integer dtype
of the token sequences. -/
def padDefaultValue : Int := 0

/-- Modelled from the spec: the dataset itself is produced by the
external `imdb.load_data` utility and is not part of the repository; the
notebook's recorded output gives the length of the first review, 218. -/
def recordedFirstLength : Nat := 218

/-- Modelled from the spec: the notebook's recorded output gives the
length of the fifth review, 147. -/
def recordedFifthLength : Nat := 147

/-- Helper: `padSequence` always returns a sequence of length `maxlen`. -/
theorem padSequence_length (maxlen : Nat) (v : Int) (s : List Int) :
    (padSequence maxlen v s).length = maxlen := by
  unfold padSequence
  split
  · rw [List.length_drop]
    omega
  · rw [List.length_append, List.length_replicate]
    omega

/-- C1: padding any review sequence with maxlen = MAX_REVIEW_LENGTH = 500
yields a sequence of length exactly 500; a shorter sequence is extended
on the left with the sentinel value, a longer one is truncated; and the
recorded review lengths before padding vary (218 versus 147). -/
theorem padded_review_length (s : List Int) :
    (padSequence MAX_REVIEW_LENGTH padDefaultValue s).length = MAX_REVIEW_LENGTH ∧
    (s.length < MAX_REVIEW_LENGTH →
      padSequence MAX_REVIEW_LENGTH padDefaultValue s
        = List.replicate (MAX_REVIEW_LENGTH - s.length) padDefaultValue ++ s) ∧
    (MAX_REVIEW_LENGTH ≤ s.length →
      padSequence MAX_REVIEW_LENGTH padDefaultValue s
        = s.drop (s.length - MAX_REVIEW_LENGTH)) ∧
    recordedFirstLength ≠ recordedFifthLength := by
  refine ⟨padSequence_length _ _ _, ?_, ?_, by decide⟩
  · intro h
    unfold padSequence
    rw [if_neg (by omega)]
  · intro h
    unfold padSequence
    rw [if_pos h]

/-- Witness for C1 at the concrete short sequence `[1, 2, 3]`. -/
theorem padded_review_length_witness :
    ([1, 2, 3] : List Int).length < MAX_REVIEW_LENGTH ∧
    padSequence MAX_REVIEW_LENGTH padDefaultValue [1, 2, 3]
      = List.replicate (MAX_REVIEW_LENGTH - ([1, 2, 3] : List Int).length)
          padDefaultValue ++ [1, 2, 3] :=
  ⟨by decide, (padded_review_length [1, 2, 3]).2.1 (by decide)⟩

/-! ## The decode helper

Source:
```
def decode(review_index):
    index = imdb.get_word_index()
    reverse_index = dict([(value, key) for (key, value) in index.items()])
    decoded = " ".join( [reverse_index.get(i - 3, "#") for i in X_train[review_index]] )
    print(decoded)
```
The word index is a Python dict mapping each word to its integer
frequency rank; we embed it as an association list of (word, rank)
pairs in dict iteration order.  `dict(pairs)` keeps, for each key, the
value of the LAST pair carrying that key, which `buildReverseIndex`
reproduces.  `.get(k, default)` is the defaulted dict lookup. -/

/-- Embedding of `reverse_index = dict([(value, key) for (key, value) in
index.items()])`: look a rank up to the word of the last index entry
carrying that rank (later pairs overwrite earlier ones in a Python dict
built from a pair list). -/
def buildReverseIndex (index : List (String × Int)) : Int → Option String :=
  fun r => ((index.filter fun p => p.2 == r).getLast?).map Prod.fst

/-- Embedding of the per-token rendering `reverse_index.get(i - 3, "#")`. -/
def decodeToken (rev : Int → Option String) (i : Int) : String :=
  (rev (i - 3)).getD "#"

/-- Embedding of the body of `decode`, with the word index and the token
sequence `X_train[review_index]` as parameters: the string the notebook
prints for the chosen review. -/
def decode (index : List (String × Int)) (seq : List Int) : String :=
  String.intercalate " " (seq.map (decodeToken (buildReverseIndex index)))

/-- Helper: looking up a nonpositive rank in the reverse index misses
whenever every rank stored in the word index is at least 1. -/
theorem buildReverseIndex_nonpos (index : List (String × Int))
    (hpos : ∀ p ∈ index, 1 ≤ p.2) (r : Int) (hr : r ≤ 0) :
    buildReverseIndex index r = none := by
  unfold buildReverseIndex
  have hfil : index.filter (fun p => p.2 == r) = [] := by
    rw [List.filter_eq_nil_iff]
    intro p hp
    have h1 := hpos p hp
    simp only [beq_iff_eq]
    omega
  rw [hfil]
  rfl

/-- Helper: when the index assigns pairwise distinct ranks, filtering it
by a rank that some entry carries keeps exactly that entry. -/
theorem filter_rank_single (w : String) (r : Int) :
    ∀ index : List (String × Int),
      index.Pairwise (fun p q => p.2 ≠ q.2) → (w, r) ∈ index →
        index.filter (fun p => p.2 == r) = [(w, r)] := by
  intro index
  induction index with
  | nil => intro _ hmem; cases hmem
  | cons a t ih =>
    intro hpw hmem
    obtain ⟨ha, ht⟩ := List.pairwise_cons.mp hpw
    rcases List.mem_cons.mp hmem with h | h
    · subst h
      rw [List.filter_cons_of_pos (by simp)]
      have hrest : t.filter (fun p => p.2 == r) = [] := by
        rw [List.filter_eq_nil_iff]
        intro p hp
        have := ha p hp
        simp only [beq_iff_eq]
        intro hpr
        exact this hpr.symm
      rw [hrest]
    · have hne : (a.2 == r) = false := beq_eq_false_iff_ne.mpr (ha (w, r) h)
      simp only [List.filter_cons, hne, Bool.false_eq_true, if_false]
      exact ih ht h

/-- C8: the reverse index built inside `decode` inverts the
word-to-rank index: for every (word, rank) entry of an index whose
ranks are pairwise distinct, looking the rank up in the reverse index
returns the word. -/
theorem buildReverseIndex_roundtrip (index : List (String × Int))
    (hinj : index.Pairwise (fun p q => p.2 ≠ q.2)) :
    ∀ w r, (w, r) ∈ index → buildReverseIndex index r = some w := by
  intro w r hmem
  unfold buildReverseIndex
  rw [filter_rank_single w r index hinj hmem]
  rfl

/-- Witness for C8 on the concrete two-word index. -/
theorem buildReverseIndex_roundtrip_witness :
    buildReverseIndex [("the", 1), ("a", 2)] 2 = some "a" :=
  buildReverseIndex_roundtrip [("the", 1), ("a", 2)] (by decide) "a" 2 (by decide)

/-- C5: the per-token rendering of `decode` is total: an index whose
shifted rank i - 3 is present in the reverse index renders as the stored
word, any other index renders as the placeholder, and, whenever every
rank in the word index is at least 1, the indices 0, 1, 2, 3 (including
the padding sentinel 0) always render as the placeholder; the decoded
string is the space-joined list of these renderings for any sequence. -/
theorem decode_total_rendering (index : List (String × Int))
    (hpos : ∀ p ∈ index, 1 ≤ p.2) :
    (∀ i w, buildReverseIndex index (i - 3) = some w →
      decodeToken (buildReverseIndex index) i = w) ∧
    (∀ i, buildReverseIndex index (i - 3) = none →
      decodeToken (buildReverseIndex index) i = "#") ∧
    (∀ i : Int, 0 ≤ i → i ≤ 3 →
      decodeToken (buildReverseIndex index) i = "#") ∧
    (∀ seq : List Int, decode index seq
      = String.intercalate " "
          (seq.map (decodeToken (buildReverseIndex index)))) := by
  refine ⟨?_, ?_, ?_, fun _ => rfl⟩
  · intro i w h
    unfold decodeToken
    rw [h]
    rfl
  · intro i h
    unfold decodeToken
    rw [h]
    rfl
  · intro i h0 h3
    unfold decodeToken
    rw [buildReverseIndex_nonpos index hpos (i - 3) (by omega)]
    rfl

/-- Witness for C5: with the concrete index [("the", 1)], the padding
sentinel 0 renders as the placeholder. -/
theorem decode_total_rendering_witness :
    decodeToken (buildReverseIndex [("the", 1)]) 0 = "#" :=
  (decode_total_rendering [("the", 1)] (by decide)).2.2.1 0 (by decide) (by decide)

/-- C2 counterexample: decoding an out-of-range token index does NOT
propagate a lookup failure: with the empty word index, every lookup
misses, yet `decode` on [0, 1, 2, 3] returns the recovered placeholder
string, so the decode operation does recover from an index that has no
entry in the inverse vocabulary. -/
theorem decode_missing_recovered_concrete :
    buildReverseIndex [] (0 - 3) = none ∧ decode [] [0, 1, 2, 3] = "# # # #" :=
  ⟨rfl, rfl⟩

/-- C2 amended: `decode` recovers from any token index whose shifted
rank is absent from the inverse vocabulary by rendering it as the
placeholder via the defaulted dict lookup, instead of raising. -/
theorem decode_recovers_missing (index : List (String × Int)) (i : Int)
    (h : buildReverseIndex index (i - 3) = none) :
    decodeToken (buildReverseIndex index) i = "#" := by
  unfold decodeToken
  rw [h]
  rfl

/-- Witness for the amended C2 at the empty index and token 5. -/
theorem decode_recovers_missing_witness :
    decodeToken (buildReverseIndex []) 5 = "#" :=
  decode_recovers_missing [] 5 rfl

/-! ## Inspected samples: decode calls versus predict inputs

The notebook decodes `decode(7337)` (commented "Bad review") and
`decode(449)` ("Good review"), then builds the prediction batch from
`text_bad = X_train[7737]` and `text_good = X_train[449]`. -/

/-- Review indices passed to `decode` in the inspection cell, in order. -/
def decodeCallIndices : List Nat := [7337, 449]

/-- Review indices whose sequences form the prediction batch
`padded_texts`, in order: `X_train[7737]` and `X_train[449]`. -/
def predictSampleIndices : List Nat := [7737, 449]

/-- C3: evaluation at the failing input: the first review index passed
to `decode` is 7337 while the first sequence handed to the models'
`predict` calls is `X_train[7737]`, so the decoded text and the first
predicted probability belong to different reviews; the second inspected
sample agrees (449 on both sides). -/
theorem inspected_indices_mismatch :
    decodeCallIndices.get? 0 = some 7337 ∧
    predictSampleIndices.get? 0 = some 7737 ∧
    decodeCallIndices ≠ predictSampleIndices ∧
    decodeCallIndices.get? 1 = predictSampleIndices.get? 1 := by
  decide

/-! ## The four Sequential layer stacks

Keras `Dense(units)` without an explicit activation uses the linear
(identity) activation. -/

/-- Activation functions appearing in the notebook's layer calls. -/
inductive Activation where
  | relu
  | sigmoid
  | linear
deriving DecidableEq

/-- The notebook's layer constructors, with the arguments given at each
call site.  The embedding layer records vocabulary size, output
dimension, the optional input_length, and mask_zero. -/
inductive Layer where
  | embedding (vocab dim : Nat) (inputLength : Option Nat) (maskZero : Bool)
  | flatten
  | dense (units : Nat) (act : Activation)
  | simpleRNN (units : Nat)
  | lstm (units : Nat)
  | bidirectionalLSTM (units : Nat)
deriving DecidableEq

/-- Layer stack of `model_fnn`: Embedding, Flatten, Dense(250, relu),
Dense(1, sigmoid). -/
def model_fnn : List Layer :=
  [Layer.embedding VOCABULARY_SIZE EMBEDDING_DIM (some MAX_REVIEW_LENGTH) false,
   Layer.flatten,
   Layer.dense 250 Activation.relu,
   Layer.dense 1 Activation.sigmoid]

/-- Layer stack of `model_rnn`: Embedding, SimpleRNN(100),
Dense(1, sigmoid). -/
def model_rnn : List Layer :=
  [Layer.embedding VOCABULARY_SIZE EMBEDDING_DIM (some MAX_REVIEW_LENGTH) false,
   Layer.simpleRNN 100,
   Layer.dense 1 Activation.sigmoid]

/-- Layer stack of `model_lstm`: Embedding, LSTM(100), Dense(1, sigmoid). -/
def model_lstm : List Layer :=
  [Layer.embedding VOCABULARY_SIZE EMBEDDING_DIM (some MAX_REVIEW_LENGTH) false,
   Layer.lstm 100,
   Layer.dense 1 Activation.sigmoid]

/-- Layer stack of the final advanced `model`: Embedding with
mask_zero=True, Bidirectional(LSTM(64)), Dense(64, relu), Dense(1) with
the default linear activation. -/
def model : List Layer :=
  [Layer.embedding VOCABULARY_SIZE 64 none true,
   Layer.bidirectionalLSTM 64,
   Layer.dense 64 Activation.relu,
   Layer.dense 1 Activation.linear]

/-- All four Sequential models the notebook constructs, in order. -/
def notebookModels : List (List Layer) :=
  [model_fnn, model_rnn, model_lstm, model]

/-- Whether a layer stack starts with an embedding layer. -/
def startsWithEmbedding (m : List Layer) : Bool :=
  match m.head? with
  | some (Layer.embedding _ _ _ _) => true
  | _ => false

/-- Whether a layer stack ends with a single-unit dense sigmoid layer. -/
def endsWithSigmoidUnit (m : List Layer) : Bool :=
  match m.getLast? with
  | some (Layer.dense 1 Activation.sigmoid) => true
  | _ => false

/-- C4 counterexample: the final advanced model is one of the models the
notebook constructs, yet its last layer is `Dense(1)` with the default
linear activation, not a sigmoid output layer. -/
theorem advanced_model_not_sigmoid :
    model ∈ notebookModels ∧ endsWithSigmoidUnit model = false := by
  decide

/-- C4 amended: the three compiled models (FNN, SimpleRNN, LSTM) each
begin with an embedding layer and end with a single-unit sigmoid dense
layer; the fourth, advanced model begins with an embedding layer but
ends with a single-unit dense layer carrying the default linear
activation. -/
theorem models_layer_structure :
    startsWithEmbedding model_fnn = true ∧ endsWithSigmoidUnit model_fnn = true ∧
    startsWithEmbedding model_rnn = true ∧ endsWithSigmoidUnit model_rnn = true ∧
    startsWithEmbedding model_lstm = true ∧ endsWithSigmoidUnit model_lstm = true ∧
    startsWithEmbedding model = true ∧
    model.getLast? = some (Layer.dense 1 Activation.linear) := by
  decide

/-! ## Compile and fit configurations -/

/-- Arguments of a `.compile(...)` call. -/
structure CompileConfig where
  loss : String
  optimizer : String
  metrics : List String
deriving DecidableEq

/-- Arguments of a `.fit(...)` call that the claims mention. -/
structure FitConfig where
  epochs : Nat
  batchSize : Nat
deriving DecidableEq

/-- Compile call of `model_fnn`. -/
def compileFnn : CompileConfig := ⟨"binary_crossentropy", "adam", ["accuracy"]⟩

/-- Compile call of `model_rnn`. -/
def compileRnn : CompileConfig := ⟨"binary_crossentropy", "adam", ["accuracy"]⟩

/-- Compile call of `model_lstm`. -/
def compileLstm : CompileConfig := ⟨"binary_crossentropy", "adam", ["accuracy"]⟩

/-- Fit call of `model_fnn` (epochs=EPOCHS, batch_size=BATCH_SIZE). -/
def fitFnn : FitConfig := ⟨EPOCHS, BATCH_SIZE⟩

/-- Fit call of `model_rnn` (epochs=EPOCHS, batch_size=BATCH_SIZE). -/
def fitRnn : FitConfig := ⟨EPOCHS, BATCH_SIZE⟩

/-- Fit call of `model_lstm` (epochs=EPOCHS, batch_size=BATCH_SIZE). -/
def fitLstm : FitConfig := ⟨EPOCHS, BATCH_SIZE⟩

/-- C6: each of the three models is trained for the same EPOCHS = 2
epochs and compiled with the same optimizer 'adam' and the same loss
'binary_crossentropy'. -/
theorem training_config_uniform :
    fitFnn.epochs = 2 ∧ fitRnn.epochs = 2 ∧ fitLstm.epochs = 2 ∧
    EPOCHS = 2 ∧
    compileFnn.optimizer = "adam" ∧ compileRnn.optimizer = "adam" ∧
    compileLstm.optimizer = "adam" ∧
    compileFnn.loss = "binary_crossentropy" ∧
    compileRnn.loss = "binary_crossentropy" ∧
    compileLstm.loss = "binary_crossentropy" :=
  ⟨rfl, rfl, rfl, rfl, rfl, rfl, rfl, rfl, rfl, rfl⟩

/-! ## Dataset loading -/

/-- A call to `imdb.load_data`; its single parameter is the vocabulary
cutoff `num_words`. -/
structure LoadDataCall where
  numWords : Nat
deriving DecidableEq

/-- The dataset-loading calls the notebook makes: exactly one,
`imdb.load_data(num_words=VOCABULARY_SIZE)`. -/
def loadDataCalls : List LoadDataCall := [⟨VOCABULARY_SIZE⟩]

/-- C7: the dataset is loaded through exactly one library call whose
single parameter is the vocabulary cutoff VOCABULARY_SIZE = 10000. -/
theorem load_single_call :
    loadDataCalls.length = 1 ∧
    loadDataCalls.all (fun c => c.numWords == 10000) = true ∧
    VOCABULARY_SIZE = 10000 := by
  decide

/-! ## The loaded dataset, as recorded by the notebook -/

/-- Modelled from the spec: the dataset comes from the external
`imdb.load_data` utility, not from this repository; the notebook's
recorded output `Categories: [0 1]` gives the distinct label values of
`y_train`. -/
def recordedCategories : List Nat := [0, 1]

/-- Modelled from the spec: the notebook's recorded output of
`print('First review', X_train[0])`, an ordered sequence of integer
token indices. -/
def firstReview : List Nat :=
  [1, 14, 22, 16, 43, 530, 973, 1622, 1385, 65, 458, 4468, 66, 3941, 4,
  173, 36, 256, 5, 25, 100, 43, 838, 112, 50, 670, 2, 9, 35, 480, 284, 5,
  150, 4, 172, 112, 167, 2, 336, 385, 39, 4, 172, 4536, 1111, 17, 546,
  38, 13, 447, 4, 192, 50, 16, 6, 147, 2025, 19, 14, 22, 4, 1920, 4613,
  469, 4, 22, 71, 87, 12, 16, 43, 530, 38, 76, 15, 13, 1247, 4, 22, 17,
  515, 17, 12, 16, 626, 18, 2, 5, 62, 386, 12, 8, 316, 8, 106, 5, 4,
  2223, 5244, 16, 480, 66, 3785, 33, 4, 130, 12, 16, 38, 619, 5, 25, 124,
  51, 36, 135, 48, 25, 1415, 33, 6, 22, 12, 215, 28, 77, 52, 5, 14, 407,
  16, 82, 2, 8, 4, 107, 117, 5952, 15, 256, 4, 2, 7, 3766, 5, 723, 36,
  71, 43, 530, 476, 26, 400, 317, 46, 7, 4, 2, 1029, 13, 104, 88, 4, 381,
  15, 297, 98, 32, 2071, 56, 26, 141, 6, 194, 7486, 18, 4, 226, 22, 21,
  134, 476, 26, 480, 5, 144, 30, 5535, 18, 51, 36, 28, 224, 92, 25, 104,
  4, 226, 65, 16, 38, 1334, 88, 12, 16, 283, 5, 16, 4472, 113, 103, 32,
  15, 16, 5345, 19, 178, 32]

set_option maxRecDepth 4000 in
/-- C9: the recorded label categories are exactly the two values 0 and
1, so every label is binary, and the recorded reviews are ordered
sequences of integer token indices whose lengths vary before padding:
the first review has the recorded length 218 while the fifth has 147. -/
theorem labels_binary_reviews_vary :
    recordedCategories = [0, 1] ∧
    recordedCategories.all (fun y => y == 0 || y == 1) = true ∧
    firstReview.length = recordedFirstLength ∧
    recordedFirstLength ≠ recordedFifthLength := by
  decide

/-! ## Padding the prediction inputs versus padding the training data -/

/-- C10: padding a list of token-index sequences with the explicit
sentinel value = 0.0 (the prediction-input call, `padded_texts`)
produces exactly the same result as padding with the library's default
sentinel (the train/test call), at maxlen = MAX_REVIEW_LENGTH. -/
theorem pad_explicit_zero_eq_default (xs : List (List Int)) :
    pad_sequences MAX_REVIEW_LENGTH 0 xs
      = pad_sequences MAX_REVIEW_LENGTH padDefaultValue xs := rfl

end RNNLSTM
